import Mathlib

/-!
Verification of `generate/lora_squad.py`: a shallow embedding of the SQuAD
LoRA evaluation harness, together with theorems about its per-example
error handling, answer extraction, reference construction, cache sizing,
checkpoint combination and adapter merging.

Strings are modelled by Lean `String`; Python-level string primitives
(`str.find`, `str.split`, `str.strip`) are re-defined below over `List Char`
following CPython semantics for non-empty separators.
-/

/-- Python exception kinds that the embedded code can raise. -/
inductive PyError
  | unboundLocalError
  | notImplementedError
  | valueError
  | keyError
  | indexError
deriving DecidableEq

/-- Index of the first occurrence of `nd` in `s` (CPython `str.find` scan:
leftmost position at which `nd` is a prefix of the remaining suffix). -/
def pyFindIdx (nd : List Char) : List Char → Option Nat
  | [] => if nd.isPrefixOf [] then some 0 else none
  | c :: t =>
    if nd.isPrefixOf (c :: t) then some 0
    else
      match pyFindIdx nd t with
      | some n => some (n + 1)
      | none => none

lemma pyFindIdx_prefix (nd : List Char) (s : List Char) :
    ∀ (i : Nat), pyFindIdx nd s = some i → nd <+: s.drop i := by
  induction s with
  | nil =>
    intro i h
    by_cases hp : nd.isPrefixOf ([] : List Char)
    · simp only [pyFindIdx, hp, if_true, Option.some.injEq] at h
      subst h
      exact List.isPrefixOf_iff_prefix.mp hp
    · simp [pyFindIdx, hp] at h
  | cons c t ih =>
    intro i h
    by_cases hp : nd.isPrefixOf (c :: t)
    · simp only [pyFindIdx, hp, if_true, Option.some.injEq] at h
      subst h
      exact List.isPrefixOf_iff_prefix.mp hp
    · simp only [pyFindIdx, hp] at h
      cases hh : pyFindIdx nd t with
      | none => rw [hh] at h; simp at h
      | some i2 =>
        rw [hh] at h
        simp at h
        subst h
        simpa using ih i2 hh

lemma pyFindIdx_min (nd : List Char) (s : List Char) :
    ∀ (i : Nat), pyFindIdx nd s = some i → ∀ j, j < i → ¬ nd <+: s.drop j := by
  induction s with
  | nil =>
    intro i h j hj
    by_cases hp : nd.isPrefixOf ([] : List Char)
    · simp only [pyFindIdx, hp, if_true, Option.some.injEq] at h
      omega
    · simp [pyFindIdx, hp] at h
  | cons c t ih =>
    intro i h j hj
    by_cases hp : nd.isPrefixOf (c :: t)
    · simp only [pyFindIdx, hp, if_true, Option.some.injEq] at h
      omega
    · simp only [pyFindIdx, hp] at h
      cases hh : pyFindIdx nd t with
      | none => rw [hh] at h; simp at h
      | some i2 =>
        rw [hh] at h
        simp at h
        subst h
        cases j with
        | zero =>
          intro hcon
          exact hp (List.isPrefixOf_iff_prefix.mpr (by simpa using hcon))
        | succ j2 =>
          simpa using ih i2 hh j2 (by omega)

lemma pyFindIdx_none (nd : List Char) (s : List Char) :
    pyFindIdx nd s = none → ∀ j, ¬ nd <+: s.drop j := by
  induction s with
  | nil =>
    intro h j
    by_cases hp : nd.isPrefixOf ([] : List Char)
    · simp [pyFindIdx, hp] at h
    · intro hcon
      exact hp (List.isPrefixOf_iff_prefix.mpr (by simpa using hcon))
  | cons c t ih =>
    intro h j
    by_cases hp : nd.isPrefixOf (c :: t)
    · simp [pyFindIdx, hp] at h
    · simp only [pyFindIdx, hp] at h
      cases hh : pyFindIdx nd t with
      | some i2 => rw [hh] at h; simp at h
      | none =>
        cases j with
        | zero =>
          intro hcon
          exact hp (List.isPrefixOf_iff_prefix.mpr (by simpa using hcon))
        | succ j2 =>
          simpa using ih hh j2

lemma pyFindIdx_le (nd : List Char) (hnd : nd ≠ []) (s : List Char) (i : Nat)
    (h : pyFindIdx nd s = some i) : i + nd.length ≤ s.length := by
  have hpre := pyFindIdx_prefix nd s i h
  have hlen := hpre.length_le
  have hpos : 1 ≤ nd.length := List.length_pos.mpr hnd
  simp only [List.length_drop] at hlen
  omega

/-- `nd` occurs somewhere in `l` iff `nd` is a prefix of some suffix of `l`. -/
lemma infix_iff_prefix_drop (nd l : List Char) : nd <:+: l ↔ ∃ j, nd <+: l.drop j := by
  constructor
  · rintro ⟨s, t, rfl⟩
    refine ⟨s.length, ?_⟩
    rw [List.append_assoc, List.drop_left]
    exact List.prefix_append nd t
  · rintro ⟨j, t, ht⟩
    exact ⟨l.take j, t, by rw [List.append_assoc, ht, List.take_append_drop]⟩

/-- `nd` first occurs in `l` at index `i`: it is a prefix of the suffix at `i`
and at no earlier index. -/
def firstOccurAt (nd l : List Char) (i : Nat) : Prop :=
  nd <+: l.drop i ∧ ∀ j, j < i → ¬ nd <+: l.drop j

instance (nd l : List Char) (i : Nat) : Decidable (firstOccurAt nd l i) := by
  unfold firstOccurAt
  infer_instance

lemma pyFindIdx_of_firstOccur (nd l : List Char) (i : Nat) (h : firstOccurAt nd l i) :
    pyFindIdx nd l = some i := by
  cases hf : pyFindIdx nd l with
  | none => exact absurd h.1 (pyFindIdx_none nd l hf i)
  | some i2 =>
    have h1 := pyFindIdx_prefix nd l i2 hf
    have h2 := pyFindIdx_min nd l i2 hf
    have heq : i = i2 := by
      rcases lt_trichotomy i i2 with hlt | heq | hgt
      · exact absurd h.1 (h2 i hlt)
      · exact heq
      · exact absurd h1 (h.2 i2 hgt)
    rw [heq]

/-- CPython `haystack.find(needle)`: character offset of the first occurrence,
`-1` when `needle` does not occur (source line 181: `context.find(answer)`). -/
def pyFind (s sub : String) : Int :=
  match pyFindIdx sub.data s.data with
  | some i => (i : Int)
  | none => -1

/-- CPython `s.split(sep)` for a non-empty separator: non-overlapping,
left-to-right splitting. Python raises `ValueError` on an empty separator;
that case is short-circuited here and never reached (the only separator used
is the fixed non-empty response delimiter). -/
def pySplit (sep : List Char) (s : List Char) : List (List Char) :=
  if hsep : sep.length = 0 then [s]
  else
    match hfind : pyFindIdx sep s with
    | none => [s]
    | some i => s.take i :: pySplit sep (s.drop (i + sep.length))
termination_by s.length
decreasing_by
  have hnd : sep ≠ [] := fun hh => hsep (by simp [hh])
  have h1 : i + sep.length ≤ s.length := pyFindIdx_le sep hnd s i hfind
  have h2 : 0 < sep.length := Nat.pos_of_ne_zero hsep
  simp only [List.length_drop]
  omega

lemma pySplit_of_none (sep s : List Char) (hsep : sep.length ≠ 0)
    (h : pyFindIdx sep s = none) : pySplit sep s = [s] := by
  rw [pySplit, dif_neg hsep]
  split
  · rfl
  · next i heq =>
      rw [h] at heq
      exact Option.noConfusion heq

lemma pySplit_of_some (sep s : List Char) (hsep : sep.length ≠ 0) (i : Nat)
    (h : pyFindIdx sep s = some i) :
    pySplit sep s = s.take i :: pySplit sep (s.drop (i + sep.length)) := by
  rw [pySplit, dif_neg hsep]
  split
  · next heq =>
      rw [h] at heq
      exact Option.noConfusion heq
  · next i2 heq =>
      rw [h] at heq
      injection heq with hi
      subst hi
      rfl

/-- CPython `s.strip()` (no argument): remove leading and trailing
whitespace. `Char.isWhitespace` approximates CPython's notion of
whitespace (it covers the ASCII whitespace that can occur in decoded
model output). -/
def pyStrip (s : String) : String :=
  String.mk ((((s.data.dropWhile Char.isWhitespace).reverse).dropWhile Char.isWhitespace).reverse)

/-- The fixed delimiter used at source line 199:
`output.split("### Response:")[1].strip()`. -/
def RESPONSE_DELIMITER : String := "### Response:"

/-- Answer extraction from a decoded output (source line 199): split on the
fixed delimiter, take element `[1]`, strip surrounding whitespace. Python
raises `IndexError` when the delimiter is absent (the split has a single
part); that failure path is modelled as `none` (it is caught by the bare
`except:` of the harness). -/
def extractResponse (output : String) : Option String :=
  match pySplit RESPONSE_DELIMITER.data output.data with
  | _ :: seg :: _ => some (pyStrip (String.mk seg))
  | _ => none

/-- One benchmark triple produced by `get_contexts_questions_answers`
(source lines 59-63). -/
structure TripleRec where
  context : String
  question : String
  answer : List String
deriving DecidableEq

/-- A prediction record (source line 202). -/
structure PredictionRecord where
  id : String
  prediction_text : String
deriving DecidableEq

/-- The `answers` payload of a reference record (source line 181). -/
structure AnswersField where
  answer_start : List Int
  text : List String
deriving DecidableEq

/-- A reference record (source line 181). -/
structure ReferenceRecord where
  id : String
  answers : AnswersField
deriving DecidableEq

/-- Reference-record construction (source line 181): id is `str(idx)`,
`answer_start` holds `context.find(answer)` for each accepted answer, and
`text` holds the answers themselves. -/
def mkReference (idx : Nat) (context : String) (answers : List String) : ReferenceRecord :=
  { id := toString idx,
    answers := { answer_start := answers.map (fun a => pyFind context a),
                 text := answers } }

/-- Sizing metadata of the key/value cache.
Modelled from the spec: `set_kv_cache` lives in the lit_gpt model code, which
is not under src; per spec section 4.2 it reserves buffers shaped
`[batch, heads, max_seq_length, head_dim]` for all blocks, re-allocated
whenever `max_seq_length` changes. Only the sizing parameters are modelled. -/
structure KVCache where
  batchSize : Nat
  maxSeqLen : Nat
deriving DecidableEq

/-- The mutable model state the harness touches per example:
`model.max_seq_length` and the kv-cache set up by `model.set_kv_cache`. -/
structure ModelState where
  maxSeqLength : Nat
  kvCache : Option KVCache
deriving DecidableEq

/-- Model state before the first example (cache not yet allocated). -/
def initialModelState : ModelState := { maxSeqLength := 0, kvCache := none }

/-- Source lines 189-193, executed per example inside the loop:
`model.max_seq_length = max_returned_tokens` followed by
`model.set_kv_cache(batch_size=1)`.
Modelled from the spec: `set_kv_cache` (lit_gpt model code, not under src)
allocates a fresh cache for the current `max_seq_length`; here this is the
sizing record with batch size 1 and the just-assigned bound. -/
def prepareState (st : ModelState) (maxReturnedTokens : Nat) : ModelState :=
  { st with
    maxSeqLength := maxReturnedTokens,
    kvCache := some { batchSize := 1, maxSeqLen := maxReturnedTokens } }

lemma prepareState_const (st : ModelState) (n : Nat) :
    prepareState st n = { maxSeqLength := n, kvCache := some { batchSize := 1, maxSeqLen := n } } := by
  cases st
  rfl

/-- External collaborators of the harness, treated as oracles:
`generate_prompt` (scripts/prepare_alpaca.py), `tokenizer.encode`,
`generate` (generate/base.py) and `tokenizer.decode`. Generation and
detokenization may fail (`none`), which the harness catches. -/
structure HarnessOracles where
  prompt : String → String → String
  encode : String → List Nat
  gen : ModelState → List Nat → Option (List Nat)
  decode : List Nat → Option String

/-- The body of the `try:` block (source lines 188-199): re-initialize the
model state for this example, run generation, detokenize, extract the
response. Any failure in generation, detokenization or extraction yields
`none`; the re-initialized state is kept either way (the `except:` at
line 200 does not restore it). -/
def tryDecode (o : HarnessOracles) (st : ModelState) (encoded : List Nat)
    (maxReturnedTokens : Nat) : ModelState × Option String :=
  let st2 := prepareState st maxReturnedTokens
  (st2,
    match o.gen st2 encoded with
    | none => none
    | some y =>
      match o.decode y with
      | none => none
      | some out => extractResponse out)

/-- Result of one iteration of the evaluation loop. -/
structure StepResult where
  state : ModelState
  ref : ReferenceRecord
  pred : PredictionRecord
deriving DecidableEq

/-- One iteration of the evaluation loop (source lines 179-202): append the
reference record, build the prompt, encode it, set
`max_returned_tokens = prompt_length + max_new_tokens`, run the guarded
decode, and append a prediction record whose text falls back to `""` on
failure (`except: output = ''`). -/
def processExample (o : HarnessOracles) (maxNewTokens : Nat) (st : ModelState)
    (idx : Nat) (t : TripleRec) : StepResult :=
  let encoded := o.encode (o.prompt t.question t.context)
  let maxReturnedTokens := encoded.length + maxNewTokens
  let td := tryDecode o st encoded maxReturnedTokens
  { state := td.1,
    ref := mkReference idx t.context t.answer,
    pred := { id := toString idx, prediction_text := td.2.getD "" } }

/-- Cumulative result of the evaluation loop. -/
structure HarnessResult where
  state : ModelState
  refs : List ReferenceRecord
  preds : List PredictionRecord
deriving DecidableEq

/-- The evaluation loop (source lines 176-202), threading the mutated model
state through the examples and collecting references and predictions in
input order. -/
def harnessLoop (o : HarnessOracles) (maxNewTokens : Nat) :
    ModelState → Nat → List TripleRec → HarnessResult
  | st, _, [] => { state := st, refs := [], preds := [] }
  | st, idx, t :: ts =>
    let r := processExample o maxNewTokens st idx t
    let rest := harnessLoop o maxNewTokens r.state (idx + 1) ts
    { state := rest.state, refs := r.ref :: rest.refs, preds := r.pred :: rest.preds }

/-- The whole evaluation phase of `main`: the loop started on the full triple
list with index 0 (`for idx, triple in enumerate(tqdm(triples))`). -/
def runHarness (o : HarnessOracles) (maxNewTokens : Nat) (triples : List TripleRec) :
    HarnessResult :=
  harnessLoop o maxNewTokens initialModelState 0 triples

/-- The guarded decode attempt for a triple, evaluated at the (irrelevant)
initial model state. -/
def decodeAttempt (o : HarnessOracles) (maxNewTokens : Nat) (t : TripleRec) : Option String :=
  (tryDecode o initialModelState (o.encode (o.prompt t.question t.context))
    ((o.encode (o.prompt t.question t.context)).length + maxNewTokens)).2

lemma tryDecode_snd_const (o : HarnessOracles) (st st2 : ModelState) (e : List Nat) (n : Nat) :
    (tryDecode o st e n).2 = (tryDecode o st2 e n).2 := by
  simp [tryDecode, prepareState_const]

lemma processExample_const (o : HarnessOracles) (m : Nat) (st st2 : ModelState)
    (idx : Nat) (t : TripleRec) :
    processExample o m st idx t = processExample o m st2 idx t := by
  simp [processExample, tryDecode, prepareState_const]

lemma processExample_pred (o : HarnessOracles) (m : Nat) (st : ModelState)
    (idx : Nat) (t : TripleRec) :
    (processExample o m st idx t).pred =
      { id := toString idx, prediction_text := (decodeAttempt o m t).getD "" } := by
  rw [processExample_const o m st initialModelState idx t]
  rfl

lemma harnessLoop_refs (o : HarnessOracles) (m : Nat) :
    ∀ (ts : List TripleRec) (st : ModelState) (idx : Nat),
      (harnessLoop o m st idx ts).refs =
        (List.enumFrom idx ts).map (fun p => mkReference p.1 p.2.context p.2.answer) := by
  intro ts
  induction ts with
  | nil => intro st idx; rfl
  | cons t ts ih =>
    intro st idx
    simp only [harnessLoop, List.enumFrom, List.map_cons]
    rw [ih _ (idx + 1)]
    rfl

lemma harnessLoop_preds (o : HarnessOracles) (m : Nat) :
    ∀ (ts : List TripleRec) (st : ModelState) (idx : Nat),
      (harnessLoop o m st idx ts).preds =
        (List.enumFrom idx ts).map
          (fun p => { id := toString p.1, prediction_text := (decodeAttempt o m p.2).getD "" }) := by
  intro ts
  induction ts with
  | nil => intro st idx; rfl
  | cons t ts ih =>
    intro st idx
    simp only [harnessLoop, List.enumFrom, List.map_cons]
    rw [ih _ (idx + 1), processExample_pred o m st idx t]

/-- One entry of a `detected_answers` list; only its `text` field is read
(source line 55). -/
structure DetectedAnswer where
  text : String
deriving DecidableEq

/-- One question/answer record of a paragraph (source lines 52-57). A field
holding `none` models a JSON `null` value (falsy in Python, like `[]`). -/
structure QA where
  question : String
  detected_answers : Option (List DetectedAnswer)
  answers : Option (List String)
deriving DecidableEq

/-- One paragraph of the benchmark input (source lines 50-52). -/
structure Paragraph where
  context : String
  qas : List QA
deriving DecidableEq

/-- `list(set(xs))` at source line 55. CPython iterates a `set` in an
unspecified (hash-dependent) order; `List.dedup` is the representative
model, and the theorems below state only order-insensitive facts
(membership and duplicate-freedom). -/
def pySetList (l : List String) : List String := l.dedup

/-- The body of the inner `for qa in paragraph['qas']` loop (source lines
53-64). `ansVar` is the Python function-local variable `answer`, which is
only (re)bound when one of the two sources is truthy and otherwise keeps
its previous binding; reading it while still unbound raises
`UnboundLocalError`. -/
def qaStep (context : String) (ansVar : Option (List String)) (qa : QA) :
    Except PyError (Option (List String) × TripleRec) :=
  let ansVar2 : Option (List String) :=
    match qa.detected_answers with
    | some (d :: ds) => some (pySetList ((d :: ds).map DetectedAnswer.text))
    | _ =>
      match qa.answers with
      | some (a :: rest) => some (a :: rest)
      | _ => ansVar
  match ansVar2 with
  | none => Except.error PyError.unboundLocalError
  | some ans =>
    Except.ok (ansVar2, { context := context, question := qa.question, answer := ans })

/-- The inner loop over `paragraph['qas']` (source lines 52-64), threading
the `answer` variable. -/
def qasLoop (context : String) : Option (List String) → List QA →
    Except PyError (Option (List String) × List TripleRec)
  | ansVar, [] => Except.ok (ansVar, [])
  | ansVar, qa :: rest =>
    match qaStep context ansVar qa with
    | Except.error e => Except.error e
    | Except.ok (ansVar2, tr) =>
      match qasLoop context ansVar2 rest with
      | Except.error e => Except.error e
      | Except.ok (ansVar3, trs) => Except.ok (ansVar3, tr :: trs)

/-- The outer loop over paragraphs (source lines 50-64); the `answer`
variable is function-local, so it also persists across paragraphs. -/
def paragraphLoop : Option (List String) → List Paragraph →
    Except PyError (Option (List String) × List TripleRec)
  | ansVar, [] => Except.ok (ansVar, [])
  | ansVar, p :: rest =>
    match qasLoop p.context ansVar p.qas with
    | Except.error e => Except.error e
    | Except.ok (ansVar2, trs1) =>
      match paragraphLoop ansVar2 rest with
      | Except.error e => Except.error e
      | Except.ok (ansVar3, trs2) => Except.ok (ansVar3, trs1 ++ trs2)

/-- `get_contexts_questions_answers` (source lines 47-66): flatten the
paragraphs into benchmark triples; the `answer` variable starts unbound. -/
def get_contexts_questions_answers (json_data : List Paragraph) :
    Except PyError (List TripleRec) :=
  match paragraphLoop none json_data with
  | Except.error e => Except.error e
  | Except.ok (_, trs) => Except.ok trs

/-- A checkpoint state dict: weight-name-keyed mapping to tensors (tensor
contents are irrelevant to the combination logic, hence a type parameter). -/
def StateDict (α : Type) : Type := String → Option α

/-- `checkpoint.update(other)` (source line 162): every key of `other`
overrides or extends `checkpoint`; all other keys are untouched. -/
def dictUpdate {α : Type} (base other : StateDict α) : StateDict α :=
  fun k =>
    match other k with
    | some v => some v
    | none => base k

/-- The adapter checkpoint file loaded at source line 161. Its tensors may
be stored flat, or nested under a `"model"` key
(`lora_checkpoint.get("model", lora_checkpoint)` at line 162). -/
structure LoraCheckpoint (α : Type) where
  entries : StateDict α
  modelEntry : Option (StateDict α)

/-- `lora_checkpoint.get("model", lora_checkpoint)` (source line 162): the
nested dict when the `"model"` key is present, the whole file otherwise. -/
def adapterStateDict {α : Type} (lc : LoraCheckpoint α) : StateDict α :=
  match lc.modelEntry with
  | some d => d
  | none => lc.entries

/-- Source lines 160-163: combine base checkpoint and adapter checkpoint
before `model.load_state_dict`. -/
def combineCheckpoints {α : Type} (base : StateDict α) (lc : LoraCheckpoint α) : StateDict α :=
  dictUpdate base (adapterStateDict lc)

/-- One adaptable linear layer with its LoRA factors.
Modelled from the spec: `merge_lora_weights` and the `LoRALinear` layer live
in `lit_gpt/lora.py`, which is not under src; per spec sections 3 and 4.1 a
layer holds a weight `W` (out x in), factors `A` (r x in) and `B` (out x r),
a scale `alpha`, and a one-shot `merged` flag. -/
structure LoRALinear (outDim inDim r : Nat) where
  weight : Fin outDim → Fin inDim → ℚ
  lora_A : Fin r → Fin inDim → ℚ
  lora_B : Fin outDim → Fin r → ℚ
  alpha : ℚ
  merged : Bool

/-- The effective low-rank update `(alpha / r) * (B @ A)` (spec section 3). -/
def loraDelta {outDim inDim r : Nat} (l : LoRALinear outDim inDim r) :
    Fin outDim → Fin inDim → ℚ :=
  fun x y => (l.alpha / (r : ℚ)) * ∑ k : Fin r, l.lora_B x k * l.lora_A k y

/-- Modelled from the spec (section 4.1): merge one layer in place --
`W <- W + (alpha / r) * B @ A` guarded by the one-shot `merged` flag; a
merged layer is left untouched. -/
def mergeWeight {outDim inDim r : Nat} (l : LoRALinear outDim inDim r) :
    LoRALinear outDim inDim r :=
  if l.merged then l
  else { l with weight := fun x y => l.weight x y + loraDelta l x y, merged := true }

/-- Modelled from the spec: `merge_lora_weights(model)` (called at source
line 167, defined in lit_gpt/lora.py, not under src) merges every adaptable
matrix of the model. -/
def merge_lora_weights {outDim inDim r : Nat} (ws : List (LoRALinear outDim inDim r)) :
    List (LoRALinear outDim inDim r) :=
  ws.map mergeWeight

/-- The quantization modes accepted by `main` (source line 73). -/
inductive Quantize
  | bnb_nf4
  | bnb_nf4_dq
  | bnb_fp4
  | bnb_fp4_dq
  | bnb_int8
  | gptq_int4
deriving DecidableEq

/-- The literal string of each mode, as matched by `quantize.startswith`
and `quantize == "gptq.int4"`. -/
def Quantize.str : Quantize → String
  | bnb_nf4 => "bnb.nf4"
  | bnb_nf4_dq => "bnb.nf4-dq"
  | bnb_fp4 => "bnb.fp4"
  | bnb_fp4_dq => "bnb.fp4-dq"
  | bnb_int8 => "bnb.int8"
  | gptq_int4 => "gptq.int4"

/-- The keys of the `dtype` dict at source line 118. -/
def bnbPrecisions : List String := ["16-true", "bf16-true", "32-true"]

/-- The quantization plugin block (source lines 108-120): with a quantize
mode and more than one device, raise `NotImplementedError`; for `bnb.*`
modes, `"mixed" in precision` raises `ValueError` and an unknown precision
key raises `KeyError` from the `dtype` dict lookup. The plugin object and
precision reassignment are external effects, not modelled. -/
def quantizeChecks (quantize : Option Quantize) (devices : Nat) (precision : String) :
    Except PyError Unit :=
  match quantize with
  | none => Except.ok ()
  | some q =>
    if devices > 1 then Except.error PyError.notImplementedError
    else if (Quantize.str q).startsWith "bnb." then
      if (pyFindIdx "mixed".data precision.data).isSome then Except.error PyError.valueError
      else if bnbPrecisions.contains precision then Except.ok ()
      else Except.error PyError.keyError
    else Except.ok ()

/-- Source lines 145-148: the gptq mode requires the quantized checkpoint
file to exist (`raise ValueError("Please run `python quantize/gptq.py` first")`). -/
def gptqCheck (quantize : Option Quantize) (gptqFileExists : Bool) : Except PyError Unit :=
  match quantize with
  | some Quantize.gptq_int4 =>
    if gptqFileExists then Except.ok () else Except.error PyError.valueError
  | _ => Except.ok ()

/-- The configuration surface of `main` relevant to the modelled checks
(source lines 68-82). -/
structure MainArgs where
  quantize : Option Quantize
  devices : Nat
  precision : Option String
  maxNewTokens : Nat

/-- External collaborators of `main`: default precision, file system,
checkpoint contents, parsed benchmark input and the generation oracles. -/
structure Env (α : Type) where
  defaultPrecision : String
  gptqFileExists : Bool
  baseCheckpoint : StateDict α
  loraFile : LoraCheckpoint α
  jsonData : List Paragraph
  oracles : HarnessOracles

/-- The control flow of `main` (source lines 68-222) restricted to the
modelled steps, in source order: precision defaulting (line 106), the
quantization plugin block (108-120), the redundant re-check (143-144), the
gptq checkpoint-file check (145-148), checkpoint combination (160-163),
benchmark loading (173-174) and the evaluation loop (176-202). Fabric
setup, model construction, weight loading, tokenizer construction and the
final file writes and scoring are external. -/
def mainModel {α : Type} (args : MainArgs) (env : Env α) :
    Except PyError (List ReferenceRecord × List PredictionRecord) :=
  let precision := args.precision.getD env.defaultPrecision
  match quantizeChecks args.quantize args.devices precision with
  | Except.error e => Except.error e
  | Except.ok _ =>
    if args.quantize.isSome && decide (args.devices > 1) then
      Except.error PyError.notImplementedError
    else
      match gptqCheck args.quantize env.gptqFileExists with
      | Except.error e => Except.error e
      | Except.ok _ =>
        let _ckpt := combineCheckpoints env.baseCheckpoint env.loraFile
        match get_contexts_questions_answers env.jsonData with
        | Except.error e => Except.error e
        | Except.ok triples =>
          let r := runHarness env.oracles args.maxNewTokens triples
          Except.ok (r.refs, r.preds)

/-- A trivial oracle bundle whose generation step always fails; used by the
concrete witnesses. -/
def trivialOracles : HarnessOracles :=
  { prompt := fun _ _ => "",
    encode := fun _ => [],
    gen := fun _ _ => none,
    decode := fun _ => none }

/-- Claim C3: for every benchmark example and accepted answer, the reference
record's `answer_start` entry is `context.find(answer)`: the character
offset of the first occurrence of the answer in the context, and `-1` when
the answer is not a verbatim substring; the `-1` is recorded as-is (the
record is built totally, no error path). -/
theorem c3_answer_start_offsets (idx : Nat) (context : String) (answers : List String) :
    (mkReference idx context answers).answers.answer_start =
      answers.map (fun a => pyFind context a)
  ∧ (mkReference idx context answers).answers.text = answers
  ∧ (∀ a : String, ¬ a.data <:+: context.data → pyFind context a = -1)
  ∧ (∀ a : String, ∀ i : Nat, firstOccurAt a.data context.data i → pyFind context a = (i : Int)) := by
  refine ⟨rfl, rfl, ?_, ?_⟩
  · intro a ha
    unfold pyFind
    cases hf : pyFindIdx a.data context.data with
    | none => rfl
    | some i =>
      exact absurd ((infix_iff_prefix_drop a.data context.data).mpr
        ⟨i, pyFindIdx_prefix _ _ i hf⟩) ha
  · intro a i hocc
    unfold pyFind
    rw [pyFindIdx_of_firstOccur a.data context.data i hocc]

theorem c3_witness :
    pyFind "Llamas are herbivores." "herbivores" = (11 : Int)
  ∧ pyFind "Llamas are herbivores." "bananas" = -1 :=
  ⟨(c3_answer_start_offsets 0 "Llamas are herbivores." []).2.2.2 "herbivores" 11 (by decide),
   (c3_answer_start_offsets 0 "Llamas are herbivores." []).2.2.1 "bananas" (by decide)⟩

/-- Claim C4: before generation for an example, the model's maximum sequence
length is set to that example's prompt token length plus `max_new_tokens`,
and a fresh batch-size-1 cache is set up for exactly that bound; this state
is rebuilt per example, independently of whatever state the previous
example left behind. -/
theorem c4_per_example_cache (o : HarnessOracles) (maxNewTokens : Nat) (st : ModelState)
    (idx : Nat) (t : TripleRec) :
    (processExample o maxNewTokens st idx t).state =
      ModelState.mk ((o.encode (o.prompt t.question t.context)).length + maxNewTokens)
        (some (KVCache.mk 1 ((o.encode (o.prompt t.question t.context)).length + maxNewTokens)))
  ∧ processExample o maxNewTokens st idx t =
      processExample o maxNewTokens initialModelState idx t := by
  constructor
  · simp [processExample, tryDecode, prepareState_const]
  · exact processExample_const o maxNewTokens st initialModelState idx t

/-- Claim C5: a record whose `detected_answers` and `answers` are both empty
(or both null) leaves the `answer` variable unbound, so processing it fails
with an `UnboundLocalError`-style failure. -/
theorem c5_missing_answer_sources :
    get_contexts_questions_answers
        [Paragraph.mk "c" [QA.mk "q" (some []) (some [])]] =
      Except.error PyError.unboundLocalError
  ∧ get_contexts_questions_answers
        [Paragraph.mk "c" [QA.mk "q" none none]] =
      Except.error PyError.unboundLocalError :=
  ⟨rfl, rfl⟩

/-- Claim C7: combining base and adapter checkpoints
(`checkpoint.update(lora_checkpoint.get("model", lora_checkpoint))`): every
weight named by the adapter overrides (or extends) the base entry of the
same name, and every other base entry is unchanged. -/
theorem c7_adapter_override {α : Type} (base : StateDict α) (lc : LoraCheckpoint α) (k : String) :
    (∀ v : α, adapterStateDict lc k = some v → combineCheckpoints base lc k = some v)
  ∧ (adapterStateDict lc k = none → combineCheckpoints base lc k = base k) := by
  constructor
  · intro v hv
    simp [combineCheckpoints, dictUpdate, hv]
  · intro hv
    simp [combineCheckpoints, dictUpdate, hv]

theorem c7_witness :
    combineCheckpoints (fun s => if s = "wq" then some (1 : Int) else none)
        { entries := fun s => if s = "wq" then some 2 else if s = "la" then some 7 else none,
          modelEntry := none } "wq" = some 2
  ∧ combineCheckpoints (fun s => if s = "wq" then some (1 : Int) else none)
        { entries := fun s => if s = "wq" then some 2 else if s = "la" then some 7 else none,
          modelEntry := none } "la" = some 7
  ∧ combineCheckpoints (fun s => if s = "wq" then some (1 : Int) else none)
        { entries := fun s => if s = "wq" then some 2 else if s = "la" then some 7 else none,
          modelEntry := none } "wk" =
      (fun s => if s = "wq" then some (1 : Int) else none) "wk" :=
  ⟨(c7_adapter_override _ _ "wq").1 2 rfl,
   (c7_adapter_override _ _ "la").1 7 rfl,
   (c7_adapter_override _ _ "wk").2 rfl⟩

lemma mergeWeight_idem {outDim inDim r : Nat} (l : LoRALinear outDim inDim r) :
    mergeWeight (mergeWeight l) = mergeWeight l := by
  by_cases hm : l.merged
  · simp [mergeWeight, hm]
  · simp [mergeWeight, hm]

/-- Claim C8: merging the adapter twice yields exactly the weights of merging
once: the one-shot `merged` flag makes the second merge a no-op on every
adaptable matrix, so the low-rank update is never double-applied. -/
theorem c8_merge_idempotent {outDim inDim r : Nat} (ws : List (LoRALinear outDim inDim r)) :
    merge_lora_weights (merge_lora_weights ws) = merge_lora_weights ws := by
  induction ws with
  | nil => rfl
  | cons w ws ih =>
    simp only [merge_lora_weights, List.map_cons, List.map_map] at *
    rw [mergeWeight_idem] at *
    rw [ih]

/-- Claim C9: after the loop, predictions and references hold exactly one
record per benchmark triple, in input order, with ids `str(idx)`; the
reference list is fully determined by the triples alone (no dependence on
the generation or detokenization oracles), so a reference record exists
even for examples whose decode fails. -/
theorem c9_one_record_per_triple (o : HarnessOracles) (maxNewTokens : Nat) (ts : List TripleRec) :
    (runHarness o maxNewTokens ts).refs =
      ts.enum.map (fun p => mkReference p.1 p.2.context p.2.answer)
  ∧ (runHarness o maxNewTokens ts).preds.map PredictionRecord.id =
      (List.range ts.length).map toString
  ∧ (runHarness o maxNewTokens ts).refs.map ReferenceRecord.id =
      (List.range ts.length).map toString
  ∧ (runHarness o maxNewTokens ts).refs.length = ts.length
  ∧ (runHarness o maxNewTokens ts).preds.length = ts.length := by
  have hr := harnessLoop_refs o maxNewTokens ts initialModelState 0
  have hp := harnessLoop_preds o maxNewTokens ts initialModelState 0
  unfold runHarness
  refine ⟨?_, ?_, ?_, ?_, ?_⟩
  · rw [hr]; rfl
  · rw [hp, List.map_map]
    rw [show (PredictionRecord.id ∘ fun p : Nat × TripleRec =>
        PredictionRecord.mk (toString p.1) ((decodeAttempt o maxNewTokens p.2).getD "")) =
        (toString ∘ Prod.fst) from rfl]
    rw [← List.map_map, show List.enumFrom 0 ts = ts.enum from rfl, List.enum_map_fst]
  · rw [hr, List.map_map]
    rw [show (ReferenceRecord.id ∘ fun p : Nat × TripleRec =>
        mkReference p.1 p.2.context p.2.answer) = (toString ∘ Prod.fst) from rfl]
    rw [← List.map_map, show List.enumFrom 0 ts = ts.enum from rfl, List.enum_map_fst]
  · rw [hr]; simp
  · rw [hp]; simp

/-- Claim C1: if the guarded decode for example `i` fails, the harness still
records a prediction with id `str(i)` and empty text, and the loop still
produces one prediction per triple (no example's failure aborts it). -/
theorem c1_failure_recovers (o : HarnessOracles) (maxNewTokens : Nat) (ts : List TripleRec)
    (i : Nat) (hi : i < ts.length)
    (hf : decodeAttempt o maxNewTokens (ts.getD i (TripleRec.mk "" "" [])) = none) :
    (runHarness o maxNewTokens ts).preds.getD i (PredictionRecord.mk "" "") =
      PredictionRecord.mk (toString i) ""
  ∧ (runHarness o maxNewTokens ts).preds.length = ts.length := by
  have hp := harnessLoop_preds o maxNewTokens ts initialModelState 0
  unfold runHarness
  rw [hp]
  have hts : ts.getD i (TripleRec.mk "" "" []) = ts[i] := by
    rw [List.getD_eq_getElem?_getD, List.getElem?_eq_getElem hi]
    rfl
  constructor
  · have hlen2 : i < ((List.enumFrom 0 ts).map (fun p =>
        PredictionRecord.mk (toString p.1) ((decodeAttempt o maxNewTokens p.2).getD ""))).length := by
      simpa using hi
    rw [List.getD_eq_getElem?_getD, List.getElem?_eq_getElem hlen2]
    rw [List.getElem_map, List.getElem_enumFrom]
    rw [hts] at hf
    simp [hf]
  · simp

theorem c1_witness :
    (runHarness trivialOracles 32
        [TripleRec.mk "ctx a" "q a" ["x"], TripleRec.mk "ctx b" "q b" ["y"]]).preds.getD 0
        (PredictionRecord.mk "" "") =
      PredictionRecord.mk (toString 0) ""
  ∧ (runHarness trivialOracles 32
        [TripleRec.mk "ctx a" "q a" ["x"], TripleRec.mk "ctx b" "q b" ["y"]]).preds.length =
      [TripleRec.mk "ctx a" "q a" ["x"], TripleRec.mk "ctx b" "q b" ["y"]].length :=
  c1_failure_recovers trivialOracles 32
    [TripleRec.mk "ctx a" "q a" ["x"], TripleRec.mk "ctx b" "q b" ["y"]] 0 (by decide) rfl

/-- Claim C10: for a record with a truthy `detected_answers` list, the
accepted-answer list is `list(set(...))` of the texts: duplicate-free and
containing exactly the distinct texts (order is a set-iteration artifact;
only order-insensitive facts are stated); the `answers` field is not
consulted on this path. -/
theorem c10_detected_answers_dedup (context : String) (ansVar : Option (List String)) (qa : QA)
    (l : List DetectedAnswer) (hda : qa.detected_answers = some l) (hne : l ≠ []) :
    ∃ tr : TripleRec,
      qaStep context ansVar qa = Except.ok (some tr.answer, tr)
    ∧ tr.answer.Nodup
    ∧ (∀ s : String, s ∈ tr.answer ↔ s ∈ l.map DetectedAnswer.text)
    ∧ ∀ other : Option (List String),
        qaStep context ansVar { qa with answers := other } = qaStep context ansVar qa := by
  cases l with
  | nil => exact absurd rfl hne
  | cons d ds =>
    refine ⟨TripleRec.mk context qa.question (pySetList ((d :: ds).map DetectedAnswer.text)),
      ?_, ?_, ?_, ?_⟩
    · simp [qaStep, hda]
    · exact List.nodup_dedup _
    · intro s
      simp [pySetList, List.mem_dedup]
    · intro other
      simp [qaStep, hda]

theorem c10_witness :
    ∃ tr : TripleRec,
      qaStep "c" none (QA.mk "q"
          (some [DetectedAnswer.mk "x", DetectedAnswer.mk "y", DetectedAnswer.mk "x"])
          (some ["z"])) = Except.ok (some tr.answer, tr)
    ∧ tr.answer.Nodup
    ∧ (∀ s : String, s ∈ tr.answer ↔
        s ∈ [DetectedAnswer.mk "x", DetectedAnswer.mk "y", DetectedAnswer.mk "x"].map
          DetectedAnswer.text)
    ∧ ∀ other : Option (List String),
        qaStep "c" none (QA.mk "q"
            (some [DetectedAnswer.mk "x", DetectedAnswer.mk "y", DetectedAnswer.mk "x"]) other) =
          qaStep "c" none (QA.mk "q"
            (some [DetectedAnswer.mk "x", DetectedAnswer.mk "y", DetectedAnswer.mk "x"])
            (some ["z"])) :=
  c10_detected_answers_dedup "c" none _
    [DetectedAnswer.mk "x", DetectedAnswer.mk "y", DetectedAnswer.mk "x"] rfl (by decide)

/-- Claim C6: selecting any quantization mode together with more than one
device makes the run fail with `NotImplementedError` at startup, whatever
the benchmark input: the error is raised before the loop, so no example is
processed. -/
theorem c6_quantize_multi_device {α : Type} (args : MainArgs) (env : Env α)
    (hq : args.quantize.isSome = true) (hd : 1 < args.devices) :
    mainModel args env = Except.error PyError.notImplementedError := by
  obtain ⟨q, hq2⟩ := Option.isSome_iff_exists.mp hq
  unfold mainModel quantizeChecks
  rw [hq2]
  simp [hd]

theorem c6_witness :
    mainModel (MainArgs.mk (some Quantize.bnb_nf4) 2 none 32)
      (Env.mk "32-true" false (fun _ => (none : Option Int))
        (LoraCheckpoint.mk (fun _ => none) none) [] trivialOracles) =
      Except.error PyError.notImplementedError :=
  c6_quantize_multi_device _ _ rfl (by decide)

/-- Claim C2: the answer is extracted by splitting the decoded text on the
fixed delimiter `"### Response:"` and taking the first segment after the
delimiter, stripped of surrounding whitespace: if the delimiter first
occurs at `i`, the extracted text is the stretch from `i + len(delimiter)`
up to the next occurrence (or the end when there is none), trimmed. When
the delimiter is absent the extraction fails (`[1]` raises `IndexError`)
and the harness records the empty-string fallback for the example. -/
theorem c2_response_delimiter_extraction (s : String) :
    (¬ RESPONSE_DELIMITER.data <:+: s.data → extractResponse s = none)
  ∧ (∀ i : Nat, firstOccurAt RESPONSE_DELIMITER.data s.data i →
      ((¬ RESPONSE_DELIMITER.data <:+: (s.data.drop (i + RESPONSE_DELIMITER.data.length)) →
          extractResponse s =
            some (pyStrip (String.mk (s.data.drop (i + RESPONSE_DELIMITER.data.length)))))
        ∧ ∀ j : Nat,
            firstOccurAt RESPONSE_DELIMITER.data
              (s.data.drop (i + RESPONSE_DELIMITER.data.length)) j →
            extractResponse s =
              some (pyStrip (String.mk ((s.data.drop (i + RESPONSE_DELIMITER.data.length)).take j)))))
  ∧ (∀ (o : HarnessOracles) (maxNewTokens : Nat) (st : ModelState) (idx : Nat) (t : TripleRec)
        (y : List Nat),
      o.gen (prepareState st ((o.encode (o.prompt t.question t.context)).length + maxNewTokens))
          (o.encode (o.prompt t.question t.context)) = some y →
      o.decode y = some s →
      (processExample o maxNewTokens st idx t).pred.prediction_text =
        (extractResponse s).getD "") := by
  have hlen : RESPONSE_DELIMITER.data.length ≠ 0 := by decide
  refine ⟨?_, ?_, ?_⟩
  · intro habs
    have hnone : pyFindIdx RESPONSE_DELIMITER.data s.data = none := by
      cases hfc : pyFindIdx RESPONSE_DELIMITER.data s.data with
      | none => rfl
      | some i =>
        exact absurd ((infix_iff_prefix_drop _ _).mpr
          ⟨i, pyFindIdx_prefix _ _ i hfc⟩) habs
    unfold extractResponse
    rw [pySplit_of_none _ _ hlen hnone]
  · intro i hocc
    have hfi := pyFindIdx_of_firstOccur _ _ i hocc
    constructor
    · intro habs2
      have hnone2 : pyFindIdx RESPONSE_DELIMITER.data
          (s.data.drop (i + RESPONSE_DELIMITER.data.length)) = none := by
        cases hfc : pyFindIdx RESPONSE_DELIMITER.data
            (s.data.drop (i + RESPONSE_DELIMITER.data.length)) with
        | none => rfl
        | some j =>
          exact absurd ((infix_iff_prefix_drop _ _).mpr
            ⟨j, pyFindIdx_prefix _ _ j hfc⟩) habs2
      unfold extractResponse
      rw [pySplit_of_some _ _ hlen i hfi, pySplit_of_none _ _ hlen hnone2]
    · intro j hocc2
      have hfj := pyFindIdx_of_firstOccur _ _ j hocc2
      unfold extractResponse
      rw [pySplit_of_some _ _ hlen i hfi, pySplit_of_some _ _ hlen j hfj]
  · intro o maxNewTokens st idx t y hg hd2
    simp only [processExample, tryDecode]
    rw [hg]
    simp [hd2]

theorem c2_witness :
    extractResponse "ab### Response: hi " =
      some (pyStrip (String.mk (("ab### Response: hi ").data.drop (2 + RESPONSE_DELIMITER.data.length))))
  ∧ extractResponse "no delimiter" = none :=
  ⟨((c2_response_delimiter_extraction "ab### Response: hi ").2.1 2 (by decide)).1 (by decide),
   (c2_response_delimiter_extraction "no delimiter").1 (by decide)⟩
